import Mathlib

/-!
Verification development for the `Assignment3Dataset` adapter in
`dataset.py`.  The Python source is shallowly embedded: JSON numbers become
rationals, the single Python float infinity that the code manipulates
(`math.inf`, used to initialise the bounding-box scan) becomes a dedicated
constructor, fallible operations return `Except`, and the mutation that
`dict.popitem` performs inside `__getitem__` is made explicit by threading
the dataset state.
-/

namespace Handpose

/-- Errors the Python code can raise.  `overflowError` is what `math.floor`
raises on an infinite float; `assertionError` comes from the `assert` in
`__getitem__`; `indexError` from indexing `_annotations_list`; the remaining
constructors stand for failures of external I/O (opening and parsing the
annotations file, iterating the root directory, opening an image). -/
inductive PyError where
  | indexError
  | assertionError
  | overflowError
  | fileNotFoundError
  | jsonDecodeError
  deriving DecidableEq, Repr

/-- The Python float values that flow through `_get_ground_truth_bounding_box`:
finite numbers (modelled exactly, as rationals) and `math.inf`, which the code
uses to initialise the running minima.  Negative infinity and NaN never arise
on the paths modelled here. -/
inductive PyFloat where
  | fin (q : ℚ)
  | inf
  deriving DecidableEq, Repr

/-- Python `min(x, m)` restricted to the values above (`math.inf` is the
absorbing top element). -/
def PyFloat.min : PyFloat → PyFloat → PyFloat
  | .fin a, .fin b => .fin (Min.min a b)
  | .fin a, .inf => .fin a
  | .inf, x => x

/-- Python `max(x, m)` restricted to the values above. -/
def PyFloat.max : PyFloat → PyFloat → PyFloat
  | .fin a, .fin b => .fin (Max.max a b)
  | .fin _, .inf => .inf
  | .inf, _ => .inf

/-- Python float division by a scalar, in the domain the theorems use
(positive divisor: Python raises `ZeroDivisionError` for a zero divisor and
produces `-inf` for a negative one; every theorem below assumes the divisor
is positive, which is the only case the program reaches with real images). -/
def PyFloat.divQ : PyFloat → ℚ → PyFloat
  | .fin a, s => .fin (a / s)
  | .inf, _ => .inf

/-- Python float multiplication by a positive scalar (only ever used with the
grid constant 13). -/
def PyFloat.mulQ : PyFloat → ℚ → PyFloat
  | .fin a, c => .fin (a * c)
  | .inf, _ => .inf

/-- Python `math.floor`: exact on finite values, raises `OverflowError`
("cannot convert float infinity to integer") on `math.inf`. -/
def pyFloor : PyFloat → Except PyError ℤ
  | .fin a => .ok ⌊a⌋
  | .inf => .error .overflowError

/-- A directory entry as `__init__` sees it through `pathlib`: its stem, its
final suffix, and whether it is a regular file. -/
structure FileEnt where
  stem : String
  sfx : String
  isFile : Bool
  deriving DecidableEq, Repr

/-- Python `str.lower()` on the ASCII suffixes the code compares
(character-wise lowering of the underlying character list). -/
def strLower (s : String) : String := ⟨s.data.map Char.toLower⟩

/-- An opened PIL image, reduced to the only attribute the code reads:
`image.size = (width, height)`. -/
structure Img where
  width : ℤ
  height : ℤ
  deriving DecidableEq, Repr

/-- The parsed `annotation.json` mapping: file stem to list of `(x, y)`
points.  A JSON object has unique keys, so an association list with first
match lookup is a faithful model. -/
abbrev AnnMap : Type := List (String × List (ℚ × ℚ))

/-- A value stored in one of the per-image dicts of `_annotations_list`:
the file paired with the coordinate list `annotations.get(stem, [])`. -/
abbrev EntryDict : Type := List (FileEnt × List (ℚ × ℚ))

/-- A 13x13 grid of 0/1 marks, as produced by `_sign_regions`. -/
abbrev Grid : Type := List (List ℕ)

/-- The values appearing in the result dict of `__getitem__`. -/
inductive Value where
  | img (i : Img)
  | bbox (b : PyFloat × PyFloat × PyFloat × PyFloat)
  | coords (c : List (ℚ × ℚ))
  | grid (g : Grid)
  | cls (n : ℕ)
  deriving DecidableEq, Repr

/-- The dict `__getitem__` returns, keys in insertion order. -/
abbrev ItemDict : Type := List (String × Value)

/-- Constant `HAND = 0` from the module header. -/
def HAND : ℕ := 0

/-- Constant `OTHER = 1` from the module header. -/
def OTHER : ℕ := 1

/-- The set of kept suffixes: `.jpg`, `.jpeg`, `.png`. -/
def extensions : List String := [".jpg", ".jpeg", ".png"]

/-- Resolution of a Python list index against a list of length `n`:
negative indices count from the end. -/
def pyIdx (n : ℕ) (i : ℤ) : ℤ := if i < 0 then i + n else i

/-- Python list read `l[i]` (negative indices count from the end; out of
range is an `IndexError`, modelled as `none`). -/
def pyGet {α : Type} (l : List α) (i : ℤ) : Option α :=
  if pyIdx l.length i < 0 then none else l.get? (pyIdx l.length i).toNat

/-- Replacing the element at Python list index `i` (used to model the
in-place `popitem` on the dict object stored at that index). -/
def pySet {α : Type} (l : List α) (i : ℤ) (a : α) : List α :=
  if pyIdx l.length i < 0 then l else l.set (pyIdx l.length i).toNat a

/-- Resolution of one bound of a Python slice against a list of length `n`
(step 1): negative values count from the end, then the bound is clamped to
`[0, n]`.  This is `slice.indices` for a single bound. -/
def resolveIdx (n : ℕ) (k : ℤ) : ℕ :=
  if k < 0 then ((n : ℤ) + k).toNat else Min.min k.toNat n

/-- Membership of position `i` in the Python slice `start : stop` of a
length-`n` axis, after bound resolution. -/
def inSliceB (n : ℕ) (start stop : ℤ) (i : ℕ) : Bool :=
  decide (resolveIdx n start ≤ i) && decide (i < resolveIdx n stop)

/-- One step of the min/max scan in `_get_ground_truth_bounding_box`:
`min_x = min(x, min_x); min_y = min(y, min_y); max_x = max(x, max_x);
max_y = max(y, max_y)`. -/
def bboxStep (acc : PyFloat × PyFloat × PyFloat × PyFloat) (p : ℚ × ℚ) :
    PyFloat × PyFloat × PyFloat × PyFloat :=
  (PyFloat.min (.fin p.1) acc.1,
   PyFloat.min (.fin p.2) acc.2.1,
   PyFloat.max (.fin p.1) acc.2.2.1,
   PyFloat.max (.fin p.2) acc.2.2.2)

/-- Model of `_get_ground_truth_bounding_box`.  Returns `(-1, -1, -1, -1)` when the
image name is not a key of the annotations mapping; otherwise folds
min/max over the coordinate list from `(inf, inf, 0, 0)` and divides each
component by its scale factor `image.size / self._dimensions`. -/
def getGroundTruthBoundingBox (ann : AnnMap) (dims : ℤ × ℤ) (img : Img)
    (imageName : String) : PyFloat × PyFloat × PyFloat × PyFloat :=
  match List.lookup imageName ann with
  | none => (.fin (-1), .fin (-1), .fin (-1), .fin (-1))
  | some coordinates =>
    let s := coordinates.foldl bboxStep (.inf, .inf, .fin 0, .fin 0)
    let scaleX : ℚ := (img.width : ℚ) / (dims.1 : ℚ)
    let scaleY : ℚ := (img.height : ℚ) / (dims.2 : ℚ)
    (s.1.divQ scaleX, s.2.1.divQ scaleY, s.2.2.1.divQ scaleX, s.2.2.2.divQ scaleY)

/-- The all-zero array `np.zeros((13, 13))`. -/
def zeroGrid : Grid :=
  (List.range 13).map fun _ => (List.range 13).map fun _ => 0

/-- Model of `_sign_regions`.  For an annotated name it floors the four scaled slice
bounds (which raises `OverflowError` when a bound is infinite) and marks the
block `result[range_x_start : range_x_end + 1, range_y_start : range_y_end + 1]`
with NumPy basic-slicing semantics; otherwise it returns the zero grid. -/
def signRegions (ann : AnnMap) (dims : ℤ × ℤ) (img : Img) (imageName : String) :
    Except PyError Grid :=
  match List.lookup imageName ann with
  | none => .ok zeroGrid
  | some _ =>
    match pyFloor (((getGroundTruthBoundingBox ann dims img imageName).1.divQ
        (dims.1 : ℚ)).mulQ 13) with
    | .error e => .error e
    | .ok rangeXStart =>
      match pyFloor (((getGroundTruthBoundingBox ann dims img imageName).2.2.1.divQ
          (dims.1 : ℚ)).mulQ 13) with
      | .error e => .error e
      | .ok rangeXEnd =>
        match pyFloor (((getGroundTruthBoundingBox ann dims img imageName).2.1.divQ
            (dims.2 : ℚ)).mulQ 13) with
        | .error e => .error e
        | .ok rangeYStart =>
          match pyFloor (((getGroundTruthBoundingBox ann dims img imageName).2.2.2.divQ
              (dims.2 : ℚ)).mulQ 13) with
          | .error e => .error e
          | .ok rangeYEnd =>
            .ok ((List.range 13).map fun i => (List.range 13).map fun j =>
              if inSliceB 13 rangeXStart (rangeXEnd + 1) i &&
                 inSliceB 13 rangeYStart (rangeYEnd + 1) j then 1 else 0)

/-- The dataset state after `__init__`: the parsed annotations mapping, the
list of one-entry dicts `_annotations_list` (mutable: `__getitem__` pops
from it), `_dimensions`, and the optional transform. -/
structure DState where
  annotations : AnnMap
  annList : List EntryDict
  dimensions : ℤ × ℤ
  transform : Option (Img → Img)

/-- The loop body of `__init__`: keep regular files whose lowered suffix is
a known image extension, and pair each with `annotations.get(stem, [])` in a
fresh single-entry dict. -/
def initAnnList (files : List FileEnt) (ann : AnnMap) : List EntryDict :=
  (files.filter fun f => f.isFile && extensions.contains (strLower f.sfx)).map
    fun f => [(f, (List.lookup f.stem ann).getD [])]

/-- Model of `__init__` after the annotations file is parsed and the directory is
listed. -/
def mkDataset (ann : AnnMap) (files : List FileEnt) (dims : ℤ × ℤ)
    (tf : Option (Img → Img)) : DState :=
  ⟨ann, initAnnList files ann, dims, tf⟩

/-- Model of `__init__` including its fallible I/O: reading/parsing the annotations
file and iterating the root directory are modelled as `Except`-valued
inputs; the body contains no handler, so either failure propagates. -/
def loadDataset (annJson : Except PyError AnnMap)
    (listing : Except PyError (List FileEnt)) (dims : ℤ × ℤ)
    (tf : Option (Img → Img)) : Except PyError DState := do
  let ann ← annJson
  let files ← listing
  return mkDataset ann files dims tf

/-- Model of `__len__`. -/
def datasetLen (st : DState) : ℕ := st.annList.length

/-- The transform application at the end of `__getitem__`:
`if self.transform: image = self.transform(image)`. -/
def applyTf (tf : Option (Img → Img)) (im : Img) : Img :=
  match tf with
  | some t => t im
  | none => im

/-- Model of `__getitem__`.  `openImage` models `Image.open` (fallible).  Returns the
result (or the propagated error) together with the post-call state: the
`popitem` mutation of the dict at `index` persists even when a later step
fails. -/
def getitem (openImage : FileEnt → Except PyError Img) (st : DState)
    (index : ℤ) : Except PyError ItemDict × DState :=
  match pyGet st.annList index with
  | none => (.error .indexError, st)
  | some d =>
    match d with
    | [(imagePath, coordinates)] =>
      let st' : DState := { st with annList := pySet st.annList index [] }
      match openImage imagePath with
      | .error e => (.error e, st')
      | .ok image =>
        let bb := getGroundTruthBoundingBox st.annotations st.dimensions image imagePath.stem
        match signRegions st.annotations st.dimensions image imagePath.stem with
        | .error e => (.error e, st')
        | .ok signed =>
          let cls : ℕ :=
            if (List.lookup imagePath.stem st.annotations).isSome then HAND else OTHER
          let image2 : Img := applyTf st.transform image
          (.ok [("image", Value.img image2),
                ("bounding_box", Value.bbox bb),
                ("annotations", Value.coords coordinates),
                ("signed_regions", Value.grid signed),
                ("class", Value.cls cls)], st')
    | _ => (.error .assertionError, st)

/-- Spec-side: the minimum of `a :: l` written as a fold. -/
def qMinOver (a : ℚ) (l : List ℚ) : ℚ := l.foldl Min.min a

/-- Spec-side: the maximum of `a :: l` written as a fold. -/
def qMaxOver (a : ℚ) (l : List ℚ) : ℚ := l.foldl Max.max a

/-- Entry `(i, j)` of a grid. -/
def gridAt (g : Grid) (i j : ℕ) : Option ℕ := (g.get? i).bind fun r => r.get? j

/-- Entry `(i, j)` of the grid a `_sign_regions` call returned, `none` when
the call raised. -/
def gridAtE (r : Except PyError Grid) (i j : ℕ) : Option ℕ :=
  match r with
  | .ok g => gridAt g i j
  | .error _ => none

/-! Concrete inputs used by the witnesses and counterexamples. -/

/-- A 13x13 image. -/
def img13 : Img := ⟨13, 13⟩

/-- An image file whose stem `"b"` is unannotated in the witnesses. -/
def fileB : FileEnt := ⟨"b", ".jpg", true⟩

/-- An image file whose stem `"a"` is annotated in the witnesses. -/
def fileA : FileEnt := ⟨"a", ".jpg", true⟩

/-- An `Image.open` model that always succeeds with a 13x13 image. -/
def openOk : FileEnt → Except PyError Img := fun _ => .ok img13

/-- Annotations mapping stem `"a"` to a single point. -/
def annA : AnnMap := [("a", [((2 : ℚ), (3 : ℚ))])]

/-- A concrete transform (the witnesses only need some non-identity map). -/
def doubleImg : Img → Img := fun im => ⟨im.width * 2, im.height * 2⟩

/-- A concrete dataset over one unannotated image file. -/
def stW3 : DState := mkDataset [] [fileB] (13, 13) none

/-- The item `__getitem__` returns for an unannotated 13x13 image with no
transform. -/
def itemNoAnn : ItemDict :=
  [("image", Value.img img13),
   ("bounding_box", Value.bbox (.fin (-1), .fin (-1), .fin (-1), .fin (-1))),
   ("annotations", Value.coords []),
   ("signed_regions", Value.grid zeroGrid),
   ("class", Value.cls OTHER)]

/-! Helper lemmas about the bounding-box scan. -/

theorem foldl_bboxStep_fin (l : List (ℚ × ℚ)) (a b c d : ℚ) :
    l.foldl bboxStep (.fin a, .fin b, .fin c, .fin d) =
      (.fin (l.foldl (fun m p => Min.min p.1 m) a),
       .fin (l.foldl (fun m p => Min.min p.2 m) b),
       .fin (l.foldl (fun m p => Max.max p.1 m) c),
       .fin (l.foldl (fun m p => Max.max p.2 m) d)) := by
  induction l generalizing a b c d with
  | nil => rfl
  | cons hd tl ih =>
    simp only [List.foldl_cons, bboxStep, PyFloat.min, PyFloat.max, ih]

theorem foldl_fst_min (l : List (ℚ × ℚ)) (a : ℚ) :
    l.foldl (fun m p => Min.min p.1 m) a = qMinOver a (l.map Prod.fst) := by
  induction l generalizing a with
  | nil => rfl
  | cons hd tl ih =>
    simp only [List.foldl_cons, List.map_cons, qMinOver] at *
    rw [ih, min_comm]

theorem foldl_snd_min (l : List (ℚ × ℚ)) (a : ℚ) :
    l.foldl (fun m p => Min.min p.2 m) a = qMinOver a (l.map Prod.snd) := by
  induction l generalizing a with
  | nil => rfl
  | cons hd tl ih =>
    simp only [List.foldl_cons, List.map_cons, qMinOver] at *
    rw [ih, min_comm]

theorem foldl_fst_max (l : List (ℚ × ℚ)) (a : ℚ) :
    l.foldl (fun m p => Max.max p.1 m) a = qMaxOver a (l.map Prod.fst) := by
  induction l generalizing a with
  | nil => rfl
  | cons hd tl ih =>
    simp only [List.foldl_cons, List.map_cons, qMaxOver] at *
    rw [ih, max_comm]

theorem foldl_snd_max (l : List (ℚ × ℚ)) (a : ℚ) :
    l.foldl (fun m p => Max.max p.2 m) a = qMaxOver a (l.map Prod.snd) := by
  induction l generalizing a with
  | nil => rfl
  | cons hd tl ih =>
    simp only [List.foldl_cons, List.map_cons, qMaxOver] at *
    rw [ih, max_comm]

theorem qMaxOver_pull (a b : ℚ) (l : List ℚ) :
    qMaxOver (Max.max a b) l = Max.max b (qMaxOver a l) := by
  induction l generalizing a with
  | nil => simp [qMaxOver, max_comm]
  | cons hd tl ih =>
    simp only [qMaxOver, List.foldl_cons] at *
    rw [Max.right_comm a b hd, ih]

/-- The scan of `_get_ground_truth_bounding_box` on a non-empty coordinate
list, characterised: the minima are the true minima over the points, the
maxima are the fold from the initial value `0`. -/
theorem getGroundTruthBoundingBox_cons {ann : AnnMap} {dims : ℤ × ℤ}
    {img : Img} {name : String} {x0 y0 : ℚ} {rest : List (ℚ × ℚ)}
    (hann : List.lookup name ann = some ((x0, y0) :: rest)) :
    getGroundTruthBoundingBox ann dims img name =
      (.fin (qMinOver x0 (rest.map Prod.fst) / ((img.width : ℚ) / (dims.1 : ℚ))),
       .fin (qMinOver y0 (rest.map Prod.snd) / ((img.height : ℚ) / (dims.2 : ℚ))),
       .fin (Max.max 0 (qMaxOver x0 (rest.map Prod.fst)) / ((img.width : ℚ) / (dims.1 : ℚ))),
       .fin (Max.max 0 (qMaxOver y0 (rest.map Prod.snd)) / ((img.height : ℚ) / (dims.2 : ℚ)))) := by
  unfold getGroundTruthBoundingBox
  rw [hann]
  simp only [List.foldl_cons]
  have hstep : bboxStep (.inf, .inf, .fin 0, .fin 0) (x0, y0) =
      (.fin x0, .fin y0, .fin (Max.max x0 0), .fin (Max.max y0 0)) := rfl
  rw [hstep, foldl_bboxStep_fin, foldl_fst_min, foldl_snd_min, foldl_fst_max,
    foldl_snd_max]
  have hx : qMaxOver (Max.max x0 0) (rest.map Prod.fst) =
      Max.max 0 (qMaxOver x0 (rest.map Prod.fst)) := qMaxOver_pull x0 0 _
  have hy : qMaxOver (Max.max y0 0) (rest.map Prod.snd) =
      Max.max 0 (qMaxOver y0 (rest.map Prod.snd)) := qMaxOver_pull y0 0 _
  rw [hx, hy]
  rfl

/-- C1 (counterexample): at the annotated point `(-2, 3)` with a 13x13 image
and dimensions `(13, 13)` (scale factors 1), `_get_ground_truth_bounding_box`
returns `(-2, 3, 0, 3)`, not the tuple `(-2, 3, -2, 3)` of minima and maxima
taken over the points: the maxima are folded from the initial value `0`, so
`max_x` never drops below `0`. -/
theorem bounding_box_max_counterexample :
    getGroundTruthBoundingBox [("a", [((-2 : ℚ), (3 : ℚ))])] (13, 13) img13 "a" =
      (.fin (-2), .fin 3, .fin 0, .fin 3) ∧
    getGroundTruthBoundingBox [("a", [((-2 : ℚ), (3 : ℚ))])] (13, 13) img13 "a" ≠
      (.fin (-2), .fin 3, .fin (-2), .fin 3) := by
  constructor
  · norm_num [getGroundTruthBoundingBox, bboxStep, PyFloat.min, PyFloat.max,
      PyFloat.divQ, img13]
  · norm_num [getGroundTruthBoundingBox, bboxStep, PyFloat.min, PyFloat.max,
      PyFloat.divQ, img13]

/-- C1 (amended): for a stem annotated with a non-empty point list, the
returned tuple is `(min x, min y, max(0, max x), max(0, max y))` over the
points — the minima are folded from `+inf` and the maxima from `0` — with
each coordinate divided by its scale factor, `image width / dimensions[0]`
for x and `image height / dimensions[1]` for y. -/
theorem bounding_box_scan_characterization
    (ann : AnnMap) (dims : ℤ × ℤ) (img : Img) (name : String) (x0 y0 : ℚ)
    (rest : List (ℚ × ℚ))
    (hann : List.lookup name ann = some ((x0, y0) :: rest))
    (hw : 0 < img.width) (hh : 0 < img.height)
    (hdx : 0 < dims.1) (hdy : 0 < dims.2) :
    getGroundTruthBoundingBox ann dims img name =
      (.fin (qMinOver x0 (rest.map Prod.fst) / ((img.width : ℚ) / (dims.1 : ℚ))),
       .fin (qMinOver y0 (rest.map Prod.snd) / ((img.height : ℚ) / (dims.2 : ℚ))),
       .fin (Max.max 0 (qMaxOver x0 (rest.map Prod.fst)) / ((img.width : ℚ) / (dims.1 : ℚ))),
       .fin (Max.max 0 (qMaxOver y0 (rest.map Prod.snd)) / ((img.height : ℚ) / (dims.2 : ℚ)))) :=
  getGroundTruthBoundingBox_cons hann

/-- Witness for the amended C1 at a concrete annotated image. -/
theorem bounding_box_scan_characterization_witness :
    getGroundTruthBoundingBox annA (13, 13) img13 "a" =
      (.fin (qMinOver 2 [] / ((13 : ℚ) / (13 : ℚ))),
       .fin (qMinOver 3 [] / ((13 : ℚ) / (13 : ℚ))),
       .fin (Max.max 0 (qMaxOver 2 []) / ((13 : ℚ) / (13 : ℚ))),
       .fin (Max.max 0 (qMaxOver 3 []) / ((13 : ℚ) / (13 : ℚ)))) :=
  bounding_box_scan_characterization annA (13, 13) img13 "a" 2 3 []
    (by rfl) (by decide) (by decide) (by decide) (by decide)

/-- C4: when a stem is annotated with an empty coordinate list, the minima
keep their initial value `math.inf`, so `_get_ground_truth_bounding_box`
returns `(inf, inf, 0, 0)` and `_sign_regions` raises `OverflowError` when
`math.floor` meets the infinite bound; no branch guards the empty list. -/
theorem empty_coordinates_overflow
    (ann : AnnMap) (dims : ℤ × ℤ) (img : Img) (name : String)
    (hann : List.lookup name ann = some [])
    (hw : 0 < img.width) (hh : 0 < img.height)
    (hdx : 0 < dims.1) (hdy : 0 < dims.2) :
    getGroundTruthBoundingBox ann dims img name = (.inf, .inf, .fin 0, .fin 0) ∧
    signRegions ann dims img name = .error .overflowError := by
  have hb : getGroundTruthBoundingBox ann dims img name =
      (.inf, .inf, .fin 0, .fin 0) := by
    unfold getGroundTruthBoundingBox
    rw [hann]
    simp [PyFloat.divQ, zero_div]
  refine ⟨hb, ?_⟩
  unfold signRegions
  rw [hann, hb]
  rfl

/-- Witness for C4 at a concrete annotated-but-empty image. -/
theorem empty_coordinates_overflow_witness :
    getGroundTruthBoundingBox [("a", ([] : List (ℚ × ℚ)))] (13, 13) img13 "a" =
      (.inf, .inf, .fin 0, .fin 0) ∧
    signRegions [("a", ([] : List (ℚ × ℚ)))] (13, 13) img13 "a" =
      .error .overflowError :=
  empty_coordinates_overflow _ _ _ _ (by rfl) (by decide) (by decide) (by decide)
    (by decide)

/-! Helper lemmas about Python list indexing and `__getitem__`. -/

theorem pyGet_some_lt {α : Type} {l : List α} {i : ℤ} {x : α}
    (h : pyGet l i = some x) :
    ¬ pyIdx l.length i < 0 ∧ (pyIdx l.length i).toNat < l.length := by
  unfold pyGet at h
  by_cases hneg : pyIdx l.length i < 0
  · simp [hneg] at h
  · refine ⟨hneg, ?_⟩
    simp only [hneg, if_false] at h
    rw [List.get?_eq_getElem?] at h
    exact (List.getElem?_eq_some.mp h).1

theorem pyGet_pySet_self {α : Type} {l : List α} {i : ℤ} {x : α} (y : α)
    (h : pyGet l i = some x) : pyGet (pySet l i y) i = some y := by
  obtain ⟨hneg, hlt⟩ := pyGet_some_lt h
  unfold pyGet pySet
  simp only [hneg, if_false, List.length_set]
  rw [List.get?_eq_getElem?]
  exact List.getElem?_set_eq_of_lt y hlt

/-- Inversion of a successful `__getitem__`: the indexed dict was a
singleton, the image opened, `_sign_regions` returned a grid, and the
result is the five-entry dict built from them. -/
theorem getitem_ok_inv {o : FileEnt → Except PyError Img} {st : DState}
    {i : ℤ} {res : ItemDict} (h : (getitem o st i).1 = .ok res) :
    ∃ f cs img g,
      pyGet st.annList i = some [(f, cs)] ∧ o f = .ok img ∧
      signRegions st.annotations st.dimensions img f.stem = .ok g ∧
      res = [("image", Value.img (applyTf st.transform img)),
             ("bounding_box", Value.bbox
                (getGroundTruthBoundingBox st.annotations st.dimensions img f.stem)),
             ("annotations", Value.coords cs),
             ("signed_regions", Value.grid g),
             ("class", Value.cls
                (if (List.lookup f.stem st.annotations).isSome then HAND else OTHER))] := by
  unfold getitem at h
  split at h
  · simp at h
  · split at h
    · split at h
      · simp at h
      · split at h
        · simp at h
        · rename_i x2 d f cs hpg x1 img hopen x0 g hsg
          simp only [Except.ok.injEq] at h
          exact ⟨f, cs, img, g, hpg, hopen, hsg, h.symm⟩
    · simp at h

/-- Once the indexed dict is a singleton, the `popitem` mutation happens no
matter how the rest of the call goes: the post state has the dict at `i`
emptied. -/
theorem getitem_state_of_entry {o : FileEnt → Except PyError Img}
    {st : DState} {i : ℤ} {f : FileEnt} {cs : List (ℚ × ℚ)}
    (hpg : pyGet st.annList i = some [(f, cs)]) :
    (getitem o st i).2 = { st with annList := pySet st.annList i [] } := by
  unfold getitem
  rw [hpg]
  dsimp only
  cases hopen : o f with
  | error e => rfl
  | ok img =>
    dsimp only
    cases hsg : signRegions st.annotations st.dimensions img f.stem with
    | error e => rfl
    | ok g => rfl

/-- Forward run of a successful `__getitem__`. -/
theorem getitem_ok_of {o : FileEnt → Except PyError Img} {st : DState}
    {i : ℤ} {f : FileEnt} {cs : List (ℚ × ℚ)} {img : Img} {g : Grid}
    (hpg : pyGet st.annList i = some [(f, cs)])
    (hopen : o f = .ok img)
    (hsg : signRegions st.annotations st.dimensions img f.stem = .ok g) :
    (getitem o st i).1 =
      .ok [("image", Value.img (applyTf st.transform img)),
           ("bounding_box", Value.bbox
              (getGroundTruthBoundingBox st.annotations st.dimensions img f.stem)),
           ("annotations", Value.coords cs),
           ("signed_regions", Value.grid g),
           ("class", Value.cls
              (if (List.lookup f.stem st.annotations).isSome then HAND else OTHER))] := by
  unfold getitem
  rw [hpg]
  dsimp only
  rw [hopen]
  dsimp only
  rw [hsg]

/-- C3: a successful `__getitem__` call removes (via `dict.popitem`) the
single entry of the dict stored at `_annotations_list[index]`, so a second
call with the same index finds an empty dict and fails the
`len(data) == 1` assertion with an `AssertionError`, even though the first
call succeeded. -/
theorem getitem_pops_and_second_call_asserts
    (o : FileEnt → Except PyError Img) (st : DState) (i : ℤ) (item : ItemDict)
    (h : (getitem o st i).1 = .ok item) :
    pyGet (getitem o st i).2.annList i = some [] ∧
    (getitem o (getitem o st i).2 i).1 = .error .assertionError := by
  obtain ⟨f, cs, img, g, hpg, hopen, hsg, hres⟩ := getitem_ok_inv h
  have hst : (getitem o st i).2 = { st with annList := pySet st.annList i [] } :=
    getitem_state_of_entry hpg
  have hpg2 : pyGet (getitem o st i).2.annList i = some [] := by
    rw [hst]
    exact pyGet_pySet_self [] hpg
  refine ⟨hpg2, ?_⟩
  rw [hst] at hpg2
  rw [hst]
  unfold getitem
  rw [hpg2]

/-- Witness for C3: on a concrete one-image dataset, the first call at
index 0 succeeds and empties the stored dict; the second call at index 0
raises `AssertionError`. -/
theorem getitem_pops_and_second_call_asserts_witness :
    pyGet (getitem openOk stW3 0).2.annList 0 = some [] ∧
    (getitem openOk (getitem openOk stW3 0).2 0).1 = .error .assertionError :=
  getitem_pops_and_second_call_asserts openOk stW3 0 itemNoAnn (by rfl)

/-- C5: whenever `_sign_regions` returns a matrix (annotated or not), it is
13x13 and every entry is 0 or 1. -/
theorem sign_regions_shape_and_binary
    (ann : AnnMap) (dims : ℤ × ℤ) (img : Img) (name : String) (g : Grid)
    (h : signRegions ann dims img name = .ok g) :
    g.length = 13 ∧ (∀ row ∈ g, row.length = 13) ∧
    (∀ row ∈ g, ∀ v ∈ row, v = 0 ∨ v = 1) := by
  unfold signRegions at h
  split at h
  · simp only [Except.ok.injEq] at h
    subst h
    exact ⟨by decide, by decide, by decide⟩
  · split at h
    · simp at h
    · split at h
      · simp at h
      · split at h
        · simp at h
        · split at h
          · simp at h
          · simp only [Except.ok.injEq] at h
            subst h
            refine ⟨by simp, ?_, ?_⟩
            · intro row hrow
              simp only [List.mem_map] at hrow
              obtain ⟨a, _, ha⟩ := hrow
              simp [← ha]
            · intro row hrow v hv
              simp only [List.mem_map] at hrow
              obtain ⟨a, _, ha⟩ := hrow
              rw [← ha] at hv
              simp only [List.mem_map] at hv
              obtain ⟨b, _, hb⟩ := hv
              rw [← hb]
              split
              · exact Or.inr rfl
              · exact Or.inl rfl

/-- Witness for C5 at a concrete call (unannotated stem, zero grid). -/
theorem sign_regions_shape_and_binary_witness :
    zeroGrid.length = 13 ∧ (∀ row ∈ zeroGrid, row.length = 13) ∧
    (∀ row ∈ zeroGrid, ∀ v ∈ row, v = 0 ∨ v = 1) :=
  sign_regions_shape_and_binary [] (13, 13) img13 "b" zeroGrid (by rfl)

/-- C8: a successful `__getitem__` returns a dict with exactly the five
keys `image`, `bounding_box`, `annotations`, `signed_regions`, `class`,
in that order. -/
theorem getitem_result_keys
    (o : FileEnt → Except PyError Img) (st : DState) (i : ℤ) (d : ItemDict)
    (h : (getitem o st i).1 = .ok d) :
    d.map Prod.fst =
      ["image", "bounding_box", "annotations", "signed_regions", "class"] := by
  obtain ⟨f, cs, img, g, hpg, hopen, hsg, hres⟩ := getitem_ok_inv h
  subst hres
  rfl

/-- Witness for C8 on the concrete one-image dataset. -/
theorem getitem_result_keys_witness :
    itemNoAnn.map Prod.fst =
      ["image", "bounding_box", "annotations", "signed_regions", "class"] :=
  getitem_result_keys openOk stW3 0 itemNoAnn (by rfl)

/-- Every dict `__init__` stores in `_annotations_list` is a singleton
pairing a kept file with `annotations.get(stem, [])`. -/
theorem initAnnList_entry {files : List FileEnt} {ann : AnnMap} {i : ℤ}
    {d : EntryDict} (h : pyGet (initAnnList files ann) i = some d) :
    ∃ f, d = [(f, (List.lookup f.stem ann).getD [])] := by
  have hmem : d ∈ initAnnList files ann := by
    obtain ⟨hneg, hlt⟩ := pyGet_some_lt h
    unfold pyGet at h
    simp only [hneg, if_false] at h
    exact List.get?_mem h
  unfold initAnnList at hmem
  simp only [List.mem_map] at hmem
  obtain ⟨f, _, hf⟩ := hmem
  exact ⟨f, hf.symm⟩

/-- C6: for an image file whose stem is not annotated, `__getitem__` returns
the bounding box `(-1, -1, -1, -1)` (not the empty tuple the docstring
promises), the empty annotation list, the all-zero 13x13 grid and class
`OTHER = 1`; for an annotated stem the returned class is `HAND = 0`. -/
theorem getitem_unannotated_fields
    (ann : AnnMap) (files : List FileEnt) (dims : ℤ × ℤ)
    (tf : Option (Img → Img)) (o : FileEnt → Except PyError Img) (i : ℤ)
    (f : FileEnt) (cs : List (ℚ × ℚ)) (img : Img)
    (hentry : pyGet (mkDataset ann files dims tf).annList i = some [(f, cs)])
    (hopen : o f = .ok img) :
    (List.lookup f.stem ann = none →
      (getitem o (mkDataset ann files dims tf) i).1 =
        .ok [("image", Value.img (applyTf tf img)),
             ("bounding_box", Value.bbox (.fin (-1), .fin (-1), .fin (-1), .fin (-1))),
             ("annotations", Value.coords []),
             ("signed_regions", Value.grid zeroGrid),
             ("class", Value.cls OTHER)]) ∧
    ((List.lookup f.stem ann).isSome = true →
      ∀ d, (getitem o (mkDataset ann files dims tf) i).1 = .ok d →
        List.lookup "class" d = some (Value.cls HAND)) := by
  obtain ⟨f2, hd⟩ := initAnnList_entry hentry
  have hf2 : f = f2 ∧ cs = (List.lookup f2.stem ann).getD [] := by
    simpa using hd
  obtain ⟨hf, hcs⟩ := hf2
  subst hf
  constructor
  · intro hnone
    have hcs0 : cs = [] := by
      rw [hcs, hnone]
      rfl
    have hbb : getGroundTruthBoundingBox ann dims img f.stem =
        (.fin (-1), .fin (-1), .fin (-1), .fin (-1)) := by
      unfold getGroundTruthBoundingBox
      rw [hnone]
    have hsg : signRegions ann dims img f.stem = .ok zeroGrid := by
      unfold signRegions
      rw [hnone]
    have h1 := getitem_ok_of hentry hopen hsg
    rw [h1]
    dsimp only [mkDataset]
    rw [hbb, hcs0, hnone]
    rfl
  · intro hsome d hd
    obtain ⟨f2, cs2, img2, g2, hpg2, hopen2, hsg2, hres⟩ := getitem_ok_inv hd
    rw [hentry] at hpg2
    have : f = f2 ∧ cs = cs2 := by simpa using hpg2
    obtain ⟨hf2, hcs2⟩ := this
    subst hf2
    rw [hres]
    dsimp only [mkDataset]
    rw [hsome]
    simp [List.lookup]

/-- Witness for C6 on a dataset holding one unannotated file over a
non-empty annotations mapping. -/
theorem getitem_unannotated_fields_witness :
    (List.lookup fileB.stem annA = none →
      (getitem openOk (mkDataset annA [fileB] (13, 13) none) 0).1 =
        .ok itemNoAnn) ∧
    ((List.lookup fileB.stem annA).isSome = true →
      ∀ d, (getitem openOk (mkDataset annA [fileB] (13, 13) none) 0).1 = .ok d →
        List.lookup "class" d = some (Value.cls HAND)) :=
  getitem_unannotated_fields annA [fileB] (13, 13) none openOk 0 fileB [] img13
    (by rfl) (by rfl)

/-- C7: the transform touches only the image.  If a call succeeds with
`transform = None` returning `d0`, the same call with a transform `t`
succeeds, returns `t` applied to the opened image under `image`, keeps
`bounding_box`, `annotations`, `signed_regions` and `class` exactly as in
`d0` (all computed from the untransformed image), and mutates
`_annotations_list` identically. -/
theorem transform_touches_only_image
    (o : FileEnt → Except PyError Img) (ann : AnnMap) (al : List EntryDict)
    (dims : ℤ × ℤ) (t : Img → Img) (i : ℤ) (d0 : ItemDict)
    (h : (getitem o ⟨ann, al, dims, none⟩ i).1 = .ok d0) :
    ∃ img bb cs g c,
      d0 = [("image", Value.img img), ("bounding_box", Value.bbox bb),
            ("annotations", Value.coords cs), ("signed_regions", Value.grid g),
            ("class", Value.cls c)] ∧
      (getitem o ⟨ann, al, dims, some t⟩ i).1 =
        .ok [("image", Value.img (t img)), ("bounding_box", Value.bbox bb),
             ("annotations", Value.coords cs), ("signed_regions", Value.grid g),
             ("class", Value.cls c)] ∧
      (getitem o ⟨ann, al, dims, some t⟩ i).2.annList =
        (getitem o ⟨ann, al, dims, none⟩ i).2.annList := by
  obtain ⟨f, cs, img, g, hpg, hopen, hsg, hres⟩ := getitem_ok_inv h
  refine ⟨img, _, cs, g, _, hres, ?_, ?_⟩
  · exact getitem_ok_of hpg hopen hsg
  · rw [@getitem_state_of_entry o ⟨ann, al, dims, some t⟩ i f cs hpg,
      @getitem_state_of_entry o ⟨ann, al, dims, none⟩ i f cs hpg]

/-- Witness for C7 on the concrete one-image dataset with a doubling
transform. -/
theorem transform_touches_only_image_witness :
    ∃ img bb cs g c,
      itemNoAnn = [("image", Value.img img), ("bounding_box", Value.bbox bb),
            ("annotations", Value.coords cs), ("signed_regions", Value.grid g),
            ("class", Value.cls c)] ∧
      (getitem openOk ⟨[], [[(fileB, [])]], (13, 13), some doubleImg⟩ 0).1 =
        .ok [("image", Value.img (doubleImg img)), ("bounding_box", Value.bbox bb),
             ("annotations", Value.coords cs), ("signed_regions", Value.grid g),
             ("class", Value.cls c)] ∧
      (getitem openOk ⟨[], [[(fileB, [])]], (13, 13), some doubleImg⟩ 0).2.annList =
        (getitem openOk ⟨[], [[(fileB, [])]], (13, 13), none⟩ 0).2.annList :=
  transform_touches_only_image openOk [] [[(fileB, [])]] (13, 13) doubleImg 0
    itemNoAnn (by rfl)

/-- C9: `__len__` counts exactly the regular files in the root whose
lowercased suffix is `.jpg`, `.jpeg` or `.png`, one dict entry per such
file, annotated or not. -/
theorem len_counts_image_files (ann : AnnMap) (files : List FileEnt)
    (dims : ℤ × ℤ) (tf : Option (Img → Img)) :
    datasetLen (mkDataset ann files dims tf) =
      (files.filter fun f => f.isFile &&
        (strLower f.sfx == ".jpg" || strLower f.sfx == ".jpeg" ||
         strLower f.sfx == ".png")).length ∧
    ∀ d ∈ (mkDataset ann files dims tf).annList, d.length = 1 := by
  constructor
  · unfold datasetLen mkDataset initAnnList
    rw [List.length_map]
    congr 1
    apply List.filter_congr
    intro f _
    congr 1
    cases h1 : (strLower f.sfx == ".jpg") <;>
      cases h2 : (strLower f.sfx == ".jpeg") <;>
      cases h3 : (strLower f.sfx == ".png") <;>
      simp [extensions, List.contains, List.elem, h1, h2, h3]
  · intro d hd
    unfold mkDataset initAnnList at hd
    simp only [List.mem_map] at hd
    obtain ⟨f, _, hf⟩ := hd
    rw [← hf]
    rfl

/-- Witness for C9 on a concrete file listing. -/
theorem len_counts_image_files_witness :
    datasetLen (mkDataset annA [fileB] (13, 13) none) =
      ([fileB].filter fun f => f.isFile &&
        (strLower f.sfx == ".jpg" || strLower f.sfx == ".jpeg" ||
         strLower f.sfx == ".png")).length ∧
    ∀ d ∈ (mkDataset annA [fileB] (13, 13) none).annList, d.length = 1 :=
  len_counts_image_files annA [fileB] (13, 13) none

/-- C10: no operation of the dataset handles failures.  A failure while
reading or parsing the annotations file aborts `__init__` with that error;
so does a failure while iterating the root directory; a failure opening the
image file aborts `__getitem__` with that error, unchanged. -/
theorem no_error_handling_propagation
    (e : PyError) (ann : AnnMap) (dims : ℤ × ℤ) (tf : Option (Img → Img))
    (listing : Except PyError (List FileEnt))
    (o : FileEnt → Except PyError Img) (st : DState) (i : ℤ)
    (f : FileEnt) (cs : List (ℚ × ℚ))
    (hpg : pyGet st.annList i = some [(f, cs)])
    (hopen : o f = .error e) :
    loadDataset (.error e) listing dims tf = .error e ∧
    loadDataset (.ok ann) (.error e) dims tf = .error e ∧
    (getitem o st i).1 = .error e := by
  refine ⟨rfl, rfl, ?_⟩
  unfold getitem
  rw [hpg]
  dsimp only
  rw [hopen]

/-- Witness for C10: a concrete `FileNotFoundError` propagates through
`loadDataset` (both inputs) and through `__getitem__`. -/
theorem no_error_handling_propagation_witness :
    loadDataset (.error .fileNotFoundError) (.ok [fileB]) (13, 13) none =
      .error .fileNotFoundError ∧
    loadDataset (.ok annA) (.error .fileNotFoundError) (13, 13) none =
      .error .fileNotFoundError ∧
    (getitem (fun _ => .error .fileNotFoundError) stW3 0).1 =
      .error .fileNotFoundError :=
  no_error_handling_propagation .fileNotFoundError annA (13, 13) none
    (.ok [fileB]) (fun _ => .error .fileNotFoundError) stW3 0 fileB []
    (by rfl) (by rfl)

/-- Entry `(i, j)` of the doubly mapped grid construction used by
`_sign_regions`. -/
theorem gridAt_build (F : ℕ → ℕ → ℕ) {i j : ℕ} (hi : i < 13) (hj : j < 13) :
    gridAt ((List.range 13).map fun a => (List.range 13).map fun b => F a b) i j
      = some (F i j) := by
  unfold gridAt
  rw [List.get?_map, List.get?_range hi]
  simp only [Option.map_some', Option.some_bind]
  rw [List.get?_map, List.get?_range hj]
  rfl

/-- C2 (amended): for a stem annotated with a non-empty point list (the
empty list raises instead, see the empty-coordinates theorem) and positive
sizes, entry `(i, j)` of the `_sign_regions` grid is 1 exactly when `i` and
`j` lie in the NumPy slices `[range_x_start : range_x_end + 1]` and
`[range_y_start : range_y_end + 1]` resolved against length 13 — negative
bounds count from the end and bounds clamp to `[0, 13]` — where the bounds
floor `(tl/width) * 13` and `(br/width) * 13` over the scaled bounding box.
When all four floors are non-negative this coincides with the plain
inequalities `range_x_start ≤ i ≤ range_x_end`, `range_y_start ≤ j ≤
range_y_end` of the original claim, but not when a floor is negative. -/
theorem sign_regions_grid_characterization
    (ann : AnnMap) (dims : ℤ × ℤ) (img : Img) (name : String) (x0 y0 : ℚ)
    (rest : List (ℚ × ℚ))
    (hann : List.lookup name ann = some ((x0, y0) :: rest))
    (hw : 0 < img.width) (hh : 0 < img.height)
    (hdx : 0 < dims.1) (hdy : 0 < dims.2)
    (i j : ℕ) (hi : i < 13) (hj : j < 13) :
    gridAtE (signRegions ann dims img name) i j =
      some (if resolveIdx 13 ⌊qMinOver x0 (rest.map Prod.fst) /
                  ((img.width : ℚ) / (dims.1 : ℚ)) / (dims.1 : ℚ) * 13⌋ ≤ i ∧
              i < resolveIdx 13 (⌊Max.max 0 (qMaxOver x0 (rest.map Prod.fst)) /
                  ((img.width : ℚ) / (dims.1 : ℚ)) / (dims.1 : ℚ) * 13⌋ + 1) ∧
              resolveIdx 13 ⌊qMinOver y0 (rest.map Prod.snd) /
                  ((img.height : ℚ) / (dims.2 : ℚ)) / (dims.2 : ℚ) * 13⌋ ≤ j ∧
              j < resolveIdx 13 (⌊Max.max 0 (qMaxOver y0 (rest.map Prod.snd)) /
                  ((img.height : ℚ) / (dims.2 : ℚ)) / (dims.2 : ℚ) * 13⌋ + 1)
            then 1 else 0) := by
  have hb := @getGroundTruthBoundingBox_cons ann dims img name x0 y0 rest hann
  unfold signRegions
  rw [hann]
  dsimp only
  rw [hb]
  dsimp only [PyFloat.divQ, PyFloat.mulQ, pyFloor]
  unfold gridAtE
  dsimp only
  rw [gridAt_build _ hi hj]
  congr 1
  simp only [inSliceB, Bool.and_eq_true, decide_eq_true_eq]
  exact if_congr (by tauto) rfl rfl

/-- Witness for the amended C2 at a concrete annotated image, cell (2, 3). -/
theorem sign_regions_grid_characterization_witness :
    gridAtE (signRegions annA (13, 13) img13 "a") 2 3 =
      some (if resolveIdx 13 ⌊qMinOver 2 (([] : List (ℚ × ℚ)).map Prod.fst) /
                  ((img13.width : ℚ) / ((13 : ℤ) : ℚ)) / ((13 : ℤ) : ℚ) * 13⌋ ≤ 2 ∧
              2 < resolveIdx 13 (⌊Max.max 0 (qMaxOver 2 (([] : List (ℚ × ℚ)).map Prod.fst)) /
                  ((img13.width : ℚ) / ((13 : ℤ) : ℚ)) / ((13 : ℤ) : ℚ) * 13⌋ + 1) ∧
              resolveIdx 13 ⌊qMinOver 3 (([] : List (ℚ × ℚ)).map Prod.snd) /
                  ((img13.height : ℚ) / ((13 : ℤ) : ℚ)) / ((13 : ℤ) : ℚ) * 13⌋ ≤ 3 ∧
              3 < resolveIdx 13 (⌊Max.max 0 (qMaxOver 3 (([] : List (ℚ × ℚ)).map Prod.snd)) /
                  ((img13.height : ℚ) / ((13 : ℤ) : ℚ)) / ((13 : ℤ) : ℚ) * 13⌋ + 1)
            then 1 else 0) :=
  sign_regions_grid_characterization annA (13, 13) img13 "a" 2 3 [] (by rfl)
    (by decide) (by decide) (by decide) (by decide) 2 3 (by decide) (by decide)

/-- C2 (counterexample): with the single annotated point `(-1, 0)`, a 13x13
image and dimensions `(13, 13)`, the scaled bounding box is
`(-1, 0, 0, 0)` and the four floored slice bounds are
`range_x_start = -1`, `range_x_end = 0`, `range_y_start = 0`,
`range_y_end = 0`.  The claim's inequalities `range_x_start ≤ i ≤
range_x_end` and `range_y_start ≤ j ≤ range_y_end` hold at cell `(0, 0)`
(indeed `-1 ≤ 0 ≤ 0` and `0 ≤ 0 ≤ 0`), yet the returned matrix is all
zero: NumPy resolves the negative start `-1` of `result[-1:1, 0:1]` to row
12, leaving the row slice empty. -/
theorem sign_regions_claim_counterexample :
    getGroundTruthBoundingBox [("a", [((-1 : ℚ), (0 : ℚ))])] (13, 13) img13 "a" =
      (.fin (-1), .fin 0, .fin 0, .fin 0) ∧
    (⌊(-1 : ℚ) / ((13 : ℤ) : ℚ) * 13⌋ = -1 ∧ ⌊(0 : ℚ) / ((13 : ℤ) : ℚ) * 13⌋ = 0) ∧
    ((-1 : ℤ) ≤ 0 ∧ (0 : ℤ) ≤ 0) ∧
    signRegions [("a", [((-1 : ℚ), (0 : ℚ))])] (13, 13) img13 "a" = .ok zeroGrid ∧
    gridAt zeroGrid 0 0 = some 0 := by
  have h1 : (⌊(-1 : ℚ) / ((13 : ℤ) : ℚ) * 13⌋ : ℤ) = -1 := by norm_num
  have h2 : (⌊(0 : ℚ) / ((13 : ℤ) : ℚ) * 13⌋ : ℤ) = 0 := by norm_num
  have hb : getGroundTruthBoundingBox [("a", [((-1 : ℚ), (0 : ℚ))])] (13, 13)
      img13 "a" = (.fin (-1), .fin 0, .fin 0, .fin 0) := by
    norm_num [getGroundTruthBoundingBox, bboxStep, PyFloat.min, PyFloat.max,
      PyFloat.divQ, img13]
  refine ⟨hb, ⟨h1, h2⟩, ⟨by decide, by decide⟩, ?_, by decide⟩
  unfold signRegions
  rw [show List.lookup "a" [("a", [((-1 : ℚ), (0 : ℚ))])] =
    some [((-1 : ℚ), (0 : ℚ))] from rfl]
  dsimp only
  rw [hb]
  dsimp only [PyFloat.divQ, PyFloat.mulQ, pyFloor]
  rw [h1, h2]
  rfl

end Handpose
